import Mathlib

/-!
Shallow embedding of the interview-coach core (topic coverage and
adaptive-difficulty engine) and proofs about it.

Sources embedded: `src/interview_coach/topics.py`,
`src/interview_coach/topic_catalog.py`, the `_stop_reason` evaluator of
`src/interview_coach/main.py`, and `update_difficulty` of
`src/interview_coach/logic.py`.

Modelling conventions:
* Python floats are modelled by `ℚ` (all core arithmetic is +, *, /, min,
  max and comparisons on small decimal constants, which `ℚ` models exactly).
* Python ints are `Int` (counters that are only ever incremented from 0 are
  `Nat`).
* Python dicts (`tracker.topic_stats`) are association lists with
  first-match lookup and update-or-append write, which coincides with dict
  semantics (dict keys are unique).
* `re.search` (the Python standard library, not repository code) is left
  abstract: functions that call it take a `reSearch : String → String → Bool`
  argument, and theorems quantify over it.
* Fallible code (Python `sorted_pool[0]` raising `IndexError` on an empty
  list) is modelled with `Option`.
* Diagnostic strings keep their structure but elide float formatting
  (`f"{x:.2f}"`); no theorem inspects them.
-/

inductive Priority where
  | must
  | nice
deriving DecidableEq, Repr

inductive Status where
  | pending
  | in_progress
  | covered
  | skipped
deriving DecidableEq, Repr

/-- `class Topic(BaseModel)` from topics.py. -/
structure Topic where
  id : String
  name : String
  priority : Priority
  min_questions : Int := 1
  tags : List String := []
  status : Status := .pending
  coverage_score : ℚ := 0
deriving DecidableEq, Repr

/-- `class TopicRules(BaseModel)` from topics.py. -/
structure TopicRules where
  target_must_coverage : ℚ := 85/100
  max_total_turns : Int := 12
  topic_cooldown : Int := 2
deriving DecidableEq, Repr

/-- `class TopicPlan(BaseModel)` from topics.py. -/
structure TopicPlan where
  role : String
  grade : String
  topics : List Topic
  rules : TopicRules
  summary : String := ""
deriving DecidableEq, Repr

/-- `class AskedQuestion(BaseModel)` from topics.py. -/
structure AskedQuestion where
  turn_id : Int
  question : String
  topic_id : String
  difficulty : Int
deriving DecidableEq, Repr

/-- `class TopicStats(BaseModel)` from topics.py; `avg_score` is normalized to 0..1. -/
structure TopicStats where
  asked : Nat := 0
  avg_score : ℚ := 0
  last_turn : Int := -1
deriving DecidableEq, Repr

/-- `class ProgressTracker(BaseModel)` from topics.py; the dict
`topic_stats` is an association list. -/
structure ProgressTracker where
  asked_questions : List AskedQuestion := []
  topic_stats : List (String × TopicStats) := []
  overall_coverage : ℚ := 0
  must_coverage : ℚ := 0
  nice_coverage : ℚ := 0
  coverage_threshold : ℚ := 7/10
deriving DecidableEq, Repr

/-- `ProgressTracker.from_plan`. -/
def ProgressTracker.from_plan (plan : TopicPlan) (coverage_threshold : ℚ := 7/10) :
    ProgressTracker :=
  { topic_stats := plan.topics.map (fun t => (t.id, ({} : TopicStats))),
    coverage_threshold := coverage_threshold }

/-- `class TopicSelection(BaseModel)` from topics.py. -/
structure TopicSelection where
  topic : Topic
  reason : String
  desired_difficulty : Int
deriving DecidableEq, Repr

/-- Python `str.lower`. (`String.toLower` itself is not kernel-reducible in
this toolchain because of its byte-position recursion; mapping over the
character list is the same function.) -/
def strLower (s : String) : String := ⟨s.data.map Char.toLower⟩

/-! ## Topic catalog (topic_catalog.py) -/

def BACKEND_BASE_TOPICS : List Topic :=
  [ { id := "python_basics", name := "Python basics", priority := .must,
      min_questions := 2, tags := ["python", "basics", "syntax"] },
    { id := "oop_principles", name := "OOP principles", priority := .must,
      min_questions := 2, tags := ["oop", "classes", "inheritance", "polymorphism"] },
    { id := "http_rest", name := "HTTP & REST", priority := .must,
      min_questions := 2, tags := ["http", "rest", "requests", "responses"] },
    { id := "db_sql_basics", name := "DB & SQL basics", priority := .must,
      min_questions := 2, tags := ["sql", "database", "queries"] },
    { id := "git_basics", name := "Git basics", priority := .must,
      min_questions := 2, tags := ["git", "version control"] },
    { id := "django_framework", name := "Django / Framework basics", priority := .must,
      min_questions := 2, tags := ["django", "framework", "orm"] },
    { id := "debug_testing", name := "Debugging & testing basics", priority := .must,
      min_questions := 2, tags := ["testing", "debug", "pytest"] } ]

def BACKEND_MIDDLE_TOPICS : List Topic :=
  [ { id := "system_design", name := "System design fundamentals", priority := .must,
      min_questions := 2, tags := ["architecture", "design", "scalability"] },
    { id := "concurrency", name := "Concurrency & async", priority := .must,
      min_questions := 2, tags := ["async", "threads", "processes"] },
    { id := "performance", name := "Performance & profiling", priority := .nice,
      min_questions := 1, tags := ["performance", "profiling", "optimization"] },
    { id := "caching", name := "Caching", priority := .nice,
      min_questions := 1, tags := ["cache", "redis", "ttl"] },
    { id := "security", name := "Security basics", priority := .nice,
      min_questions := 1, tags := ["security", "auth", "owasp"] },
    { id := "ci_cd", name := "CI/CD", priority := .nice,
      min_questions := 1, tags := ["ci", "cd", "pipelines"] } ]

def BACKEND_SENIOR_TOPICS : List Topic :=
  [ { id := "system_design_advanced", name := "System design (advanced)", priority := .must,
      min_questions := 2, tags := ["architecture", "tradeoffs", "capacity"] },
    { id := "concurrency_deep", name := "Concurrency scaling", priority := .must,
      min_questions := 2, tags := ["locks", "queues", "asyncio"] },
    { id := "reliability", name := "Reliability & observability", priority := .nice,
      min_questions := 1, tags := ["logging", "metrics", "tracing"] } ]

/-- `get_backend_topics_for_grade` from topic_catalog.py. -/
def get_backend_topics_for_grade (grade : String) : List Topic :=
  let g := strLower grade
  let topics := BACKEND_BASE_TOPICS
  let topics := if g = "middle" ∨ g = "senior" then topics ++ BACKEND_MIDDLE_TOPICS else topics
  if g = "senior" then topics ++ BACKEND_SENIOR_TOPICS else topics

/-! ## Plan builder (topics.py) -/

def LANGUAGE_LABELS : List (String × String) :=
  [("python", "Python"), ("java", "Java"), ("csharp", "C#"),
   ("javascript", "JavaScript"), ("typescript", "TypeScript"), ("go", "Go"),
   ("php", "PHP"), ("ruby", "Ruby"), ("kotlin", "Kotlin"), ("scala", "Scala"),
   ("rust", "Rust")]

def lookupLabel (labels : List (String × String)) (key : String) (dflt : String) : String :=
  ((labels.find? (fun p => decide (p.1 = key))).map Prod.snd).getD dflt

def LANGUAGE_PATTERNS : List (String × List String) :=
  [("typescript", ["\\btypescript\\b", "\\bts\\b"]),
   ("javascript", ["\\bjavascript\\b", "\\bnode\\.?js\\b", "\\bnode\\b"]),
   ("python", ["\\bpython\\b", "\\bdjango\\b", "\\bdrf\\b", "\\bfastapi\\b", "\\bflask\\b"]),
   ("java", ["\\bjava\\b", "\\bspring\\b"]),
   ("csharp", ["\\bc#\\b", "\\bcsharp\\b", "\\basp\\.?net\\b", "\\b\\.net\\b"]),
   ("go", ["\\bgolang\\b", "\\bgo developer\\b"]),
   ("php", ["\\bphp\\b", "\\blaravel\\b", "\\bsymfony\\b"]),
   ("ruby", ["\\bruby\\b", "\\brails\\b"]),
   ("kotlin", ["\\bkotlin\\b"]),
   ("scala", ["\\bscala\\b"]),
   ("rust", ["\\brust\\b"])]

def FRAMEWORK_KEYWORDS : List (String × List String × List String) :=
  [("Django", ["django", "drf"], ["\\bdjango\\b", "\\bdrf\\b"]),
   ("FastAPI", ["fastapi"], ["\\bfastapi\\b"]),
   ("Flask", ["flask"], ["\\bflask\\b"]),
   ("Spring", ["spring", "spring boot"], ["\\bspring\\b"]),
   ("ASP.NET Core", ["asp.net", ".net", "aspnet"], ["\\basp\\.?net\\b", "\\b\\.net\\b", "\\baspnet\\b"]),
   ("Node.js / Express", ["node", "express", "nestjs"], ["\\bnode\\.?js\\b", "\\bexpress\\b", "\\bnest(js)?\\b"]),
   ("Laravel", ["laravel"], ["\\blaravel\\b"]),
   ("Symfony", ["symfony"], ["\\bsymfony\\b"]),
   ("Rails", ["rails"], ["\\brails\\b"]),
   ("Gin / Fiber", ["gin", "fiber"], ["\\bgin\\b", "\\bfiber\\b"])]

def DEFAULT_FRAMEWORK_BY_LANG : List (String × String × List String) :=
  [("python", "Django/Flask/FastAPI", ["django", "flask", "fastapi"]),
   ("java", "Spring", ["spring"]),
   ("csharp", "ASP.NET Core", ["asp.net", ".net"]),
   ("javascript", "Node.js/Express", ["node", "express"]),
   ("typescript", "Node.js/Nest", ["node", "nestjs", "typescript"]),
   ("go", "Gin/Fiber", ["gin", "fiber"]),
   ("php", "Laravel/Symfony", ["laravel", "symfony"]),
   ("ruby", "Rails", ["rails"]),
   ("kotlin", "Ktor/Spring", ["ktor", "spring"]),
   ("scala", "Akka/Play", ["akka", "play"]),
   ("rust", "Actix/Rocket", ["actix", "rocket"])]

/-- `_infer_primary_language`; `reSearch` abstracts `re.search` from the
Python standard library. -/
def _infer_primary_language (reSearch : String → String → Bool)
    (role_text experience_text : String) : String :=
  let text := strLower (role_text ++ " " ++ experience_text)
  ((LANGUAGE_PATTERNS.findSome? (fun lp =>
      if lp.2.any (fun pattern => reSearch pattern text) then some lp.1 else none)).getD "")

/-- `_infer_framework`. -/
def _infer_framework (reSearch : String → String → Bool)
    (experience_text language : String) : String × List String × Bool :=
  let text := strLower experience_text
  match FRAMEWORK_KEYWORDS.findSome? (fun ntp =>
      if ntp.2.2.any (fun pattern => reSearch pattern text) then some (ntp.1, ntp.2.1, true)
      else none) with
  | some r => r
  | none =>
    match (if language ≠ "" then DEFAULT_FRAMEWORK_BY_LANG.find? (fun p => decide (p.1 = language)) else none) with
    | some p => (p.2.1, p.2.2, false)
    | none => ("Web framework basics", ["framework", "backend"], false)

/-- The per-topic relabelling step of `_apply_language_and_framework`. -/
def relabelTopic (language framework_name : String) (framework_tags : List String)
    (t : Topic) : Topic :=
  let lang_label := lookupLabel LANGUAGE_LABELS language ""
  let t :=
    if t.id = "python_basics" then
      if lang_label ≠ "" then
        { t with name := lang_label ++ " basics",
                 tags := language :: ((t.tags.filter (fun tag => decide (tag ≠ "python"))).filter
                   (fun tag => decide (tag ≠ language))) }
      else
        { t with name := "Programming language basics",
                 tags := (t.tags.filter (fun tag => decide (tag ≠ "python"))) ++ ["language"] }
    else t
  if t.id = "django_framework" then
    { t with name := framework_name ++ " / Framework basics",
             tags := (framework_tags ++ ["framework", "web"]).dedup }
  else t

/-- `_apply_language_and_framework` (the Python version mutates the list in
place; here it returns the new list). -/
def _apply_language_and_framework (topics : List Topic) (language framework_name : String)
    (framework_tags : List String) : List Topic :=
  topics.map (relabelTopic language framework_name framework_tags)

/-- The `framework_hit` branch of `build_topic_plan` that promotes the
`django_framework` topic. -/
def bumpDjango (t : Topic) : Topic :=
  if t.id = "django_framework" then
    { t with min_questions := max t.min_questions 2, priority := .must }
  else t

/-- `build_topic_plan` from topics.py. -/
def build_topic_plan (reSearch : String → String → Bool)
    (role grade experience_text : String) : TopicPlan :=
  let role_l := strLower role
  let grade_l := strLower grade
  let base_topics := get_backend_topics_for_grade grade
  let topics := base_topics
  let exp_l := strLower experience_text
  let language := _infer_primary_language reSearch role_l exp_l
  let fw := _infer_framework reSearch exp_l language
  let framework_name := fw.1
  let framework_tags := fw.2.1
  let framework_hit := fw.2.2
  let topics := _apply_language_and_framework topics language framework_name framework_tags
  let summary_bits : List String :=
    (if language ≠ "" then ["язык=" ++ lookupLabel LANGUAGE_LABELS language language] else []) ++
    (if framework_hit then ["фреймворк=" ++ framework_name] else []) ++
    (if (exp_l.splitOn "sql").length > 1 ∧ (exp_l.splitOn "немного").length > 1
     then ["SQL с базовых вопросов"] else [])
  let topics := if framework_hit then topics.map bumpDjango else topics
  let rules :=
    if grade_l = "junior" then
      { target_must_coverage := 85/100, max_total_turns := 10, topic_cooldown := 1 }
    else if grade_l = "middle" then
      { target_must_coverage := 9/10, max_total_turns := 14, topic_cooldown := 2 }
    else
      ({ target_must_coverage := 92/100, max_total_turns := 16, topic_cooldown := 2 } : TopicRules)
  let names := String.intercalate ", "
    ((topics.filter (fun t => decide (t.priority = Priority.must))).map Topic.name)
  let summary := if names ≠ "" then "План must-тем: " ++ names ++ "." else ""
  let summary :=
    if summary_bits ≠ [] then summary ++ " Адаптации: " ++ String.intercalate "; " summary_bits
    else summary
  { role := role, grade := grade, topics := topics, rules := rules, summary := summary }

/-! ## Progress and coverage (topics.py) -/

/-- `_normalize_score`. -/
def _normalize_score (score : ℚ) : ℚ :=
  max 0 (min score 4) / 4

/-- `tracker.topic_stats.get(topic_id, TopicStats())`: dict lookup with default. -/
def statsD (tracker : ProgressTracker) (topic_id : String) : TopicStats :=
  ((tracker.topic_stats.find? (fun p => decide (p.1 = topic_id))).map Prod.snd).getD {}

/-- Dict write `tracker.topic_stats[topic_id] = v`: replace the binding if the
key is present, append it otherwise (as `_get_stats` does on a miss). -/
def setStats (stats : List (String × TopicStats)) (topic_id : String) (v : TopicStats) :
    List (String × TopicStats) :=
  if stats.any (fun p => decide (p.1 = topic_id)) then
    stats.map (fun p => if p.1 = topic_id then (p.1, v) else p)
  else
    stats ++ [(topic_id, v)]

/-- The per-topic body of the `recalc_coverage` loop: recompute
`coverage_score` and apply the status transitions. -/
def recalcTopic (threshold : ℚ) (stats : TopicStats) (topic : Topic) : Topic :=
  let completion : ℚ := min ((stats.asked : ℚ) / ((max topic.min_questions 1 : Int) : ℚ)) 1
  let coverage := completion * max 0 (min stats.avg_score 1)
  let topic := { topic with coverage_score := coverage }
  let topic :=
    if 0 < stats.asked ∧ topic.status = .pending then { topic with status := .in_progress }
    else topic
  if topic.status ≠ .covered ∧ (stats.asked : Int) ≥ topic.min_questions ∧
      stats.avg_score ≥ threshold then
    { topic with status := .covered }
  else topic

/-- `recalc_coverage` from topics.py (mutation is modelled by returning the
new plan and tracker). The Python loop appends each must topic's fresh
coverage to `must_scores` and each other topic's to `nice_scores`, in plan
order; that is the filtered projection below. -/
def recalc_coverage (plan : TopicPlan) (tracker : ProgressTracker) :
    TopicPlan × ProgressTracker :=
  let newTopics := plan.topics.map
    (fun t => recalcTopic tracker.coverage_threshold (statsD tracker t.id) t)
  let must_scores := (newTopics.filter (fun t => decide (t.priority = Priority.must))).map
    Topic.coverage_score
  let nice_scores := (newTopics.filter (fun t => decide (¬t.priority = Priority.must))).map
    Topic.coverage_score
  let all_scores := must_scores ++ nice_scores
  ({ plan with topics := newTopics },
   { tracker with
       must_coverage :=
         if must_scores ≠ [] then must_scores.sum / (must_scores.length : ℚ)
         else tracker.must_coverage,
       nice_coverage :=
         if nice_scores ≠ [] then nice_scores.sum / (nice_scores.length : ℚ)
         else tracker.nice_coverage,
       overall_coverage :=
         if all_scores ≠ [] then all_scores.sum / (all_scores.length : ℚ)
         else tracker.overall_coverage })

/-- `record_progress` from topics.py. -/
def record_progress (plan : TopicPlan) (tracker : ProgressTracker) (topic_id : String)
    (turn_id : Int) (question : String) (score : ℚ) (difficulty : Int) :
    TopicPlan × ProgressTracker :=
  let stats := statsD tracker topic_id
  let normalized := _normalize_score score
  let asked := stats.asked + 1
  let avg := (stats.avg_score * ((asked - 1 : Nat) : ℚ) + normalized) / (asked : ℚ)
  let newStats : TopicStats := { asked := asked, avg_score := avg, last_turn := turn_id }
  let tracker :=
    { tracker with
        topic_stats := setStats tracker.topic_stats topic_id newStats,
        asked_questions := tracker.asked_questions ++
          [{ turn_id := turn_id, question := question, topic_id := topic_id,
             difficulty := difficulty }] }
  recalc_coverage plan tracker

/-! ## Topic selection (topics.py) -/

/-- `_eligible_topics` from topics.py. -/
def _eligible_topics (plan : TopicPlan) (tracker : ProgressTracker) (current_turn : Int) :
    List Topic :=
  plan.topics.filter (fun topic =>
    let stats := statsD tracker topic.id
    decide (¬(topic.status = Status.covered ∧ 0 < plan.rules.topic_cooldown ∧
      0 ≤ stats.last_turn ∧ current_turn - stats.last_turn ≤ plan.rules.topic_cooldown)))

/-- `_preferred_start_topic` from topics.py. -/
def _preferred_start_topic (plan : TopicPlan) (eligible : List Topic) (current_turn : Int) :
    Option Topic :=
  if current_turn ≠ 1 then none
  else
    let grade_l := strLower plan.grade
    let preferred_ids : Option (List String) :=
      if grade_l = "senior" then
        some ["system_design_advanced", "concurrency_deep", "system_design",
              "concurrency", "performance", "reliability", "security"]
      else if grade_l = "middle" then
        some ["system_design", "concurrency", "http_rest", "db_sql_basics"]
      else none
    match preferred_ids with
    | none => none
    | some pids =>
      pids.findSome? (fun pid =>
        eligible.find? (fun topic => decide (topic.id = pid ∧
          (topic.status = Status.pending ∨ topic.status = Status.in_progress))))

/-- `_topic_sort_key` from topics.py; the Python int/float tuple is modelled
uniformly in `ℚ`. -/
def _topic_sort_key (topic : Topic) (tracker : ProgressTracker) : ℚ × ℚ × ℚ × ℚ :=
  let stats := statsD tracker topic.id
  (if topic.priority = .must then 0 else 1,
   (stats.asked : ℚ) / ((max topic.min_questions 1 : Int) : ℚ),
   stats.avg_score,
   if 0 ≤ stats.last_turn then (stats.last_turn : ℚ) else -999)

/-- Lexicographic order on sort-key tuples: how Python compares the tuples
produced by `_topic_sort_key`. -/
def keyLe (a b : ℚ × ℚ × ℚ × ℚ) : Prop :=
  a.1 < b.1 ∨ (a.1 = b.1 ∧ (a.2.1 < b.2.1 ∨ (a.2.1 = b.2.1 ∧
    (a.2.2.1 < b.2.2.1 ∨ (a.2.2.1 = b.2.2.1 ∧ a.2.2.2 ≤ b.2.2.2)))))

instance : DecidableRel keyLe := fun a b => by
  unfold keyLe
  infer_instance

/-- The topic comparison used by `sorted(pool, key=lambda t: _topic_sort_key(t, tracker))`. -/
def topicLe (tracker : ProgressTracker) (a b : Topic) : Prop :=
  keyLe (_topic_sort_key a tracker) (_topic_sort_key b tracker)

instance (tracker : ProgressTracker) : DecidableRel (topicLe tracker) := fun a b => by
  unfold topicLe
  infer_instance

/-- `suggest_difficulty` from topics.py. -/
def suggest_difficulty (base_difficulty : Int) (stats : TopicStats) : Int :=
  if stats.asked = 0 then base_difficulty
  else if stats.avg_score ≥ 3/4 then min 5 (base_difficulty + 1)
  else if stats.avg_score ≤ 2/5 then max 1 (base_difficulty - 1)
  else base_difficulty

/-- `select_next_topic` from topics.py. Python's `sorted` is a stable sort by
the key tuple, modelled by insertion sort under `topicLe`; `sorted_pool[0]`
raises `IndexError` on an empty pool, modelled by `none`. -/
def select_next_topic (plan : TopicPlan) (tracker : ProgressTracker) (current_turn : Int)
    (base_difficulty : Int) : Option TopicSelection :=
  let eligible0 := _eligible_topics plan tracker current_turn
  let eligible := if eligible0.isEmpty then plan.topics else eligible0
  match _preferred_start_topic plan eligible current_turn with
  | some preferred =>
    let stats := statsD tracker preferred.id
    let desired_diff := suggest_difficulty base_difficulty stats
    some { topic := preferred,
           reason := "start bias for grade=" ++ plan.grade ++ ": picked " ++ preferred.id,
           desired_difficulty := desired_diff }
  | none =>
    let must_need := tracker.must_coverage < plan.rules.target_must_coverage
    let must_candidates := eligible.filter (fun t => decide (t.priority = Priority.must ∧
      (t.status = Status.pending ∨ t.status = Status.in_progress)))
    let pool := if must_need ∧ must_candidates ≠ [] then must_candidates else eligible
    let sorted_pool := List.insertionSort (topicLe tracker) pool
    match sorted_pool with
    | [] => none
    | chosen :: _ =>
      let stats := statsD tracker chosen.id
      let desired_diff := suggest_difficulty base_difficulty stats
      some { topic := chosen,
             reason := "must coverage below target; picked " ++ chosen.id,
             desired_difficulty := desired_diff }

/-! ## Session state, stop evaluator (main.py) and difficulty update (logic.py) -/

/-- `class ConversationTurn(BaseModel)` from schemas.py. -/
structure ConversationTurn where
  turn_id : Int
  agent_visible_message : String
  user_message : String
  internal_thoughts : String
deriving DecidableEq, Repr

/-- The two `ObserverAnalysis` fields the core reads (`answer_score` is
validated to 0..4 and `difficulty_delta` to -1..1 by pydantic; the text
fields are never read by the core). -/
structure ObserverAnalysis where
  answer_score : Int
  difficulty_delta : Int
deriving DecidableEq, Repr

/-- `SessionState` as used by `main.py` (the schema fields read by the core,
plus the plan/progress/limit fields `run_interview` attaches to the state). -/
structure SessionState where
  participant_name : String := ""
  position : String := ""
  grade : String := ""
  experience : String := ""
  difficulty : Int := 2
  history : List ConversationTurn := []
  recent_scores : List Int := []
  topic_plan : Option TopicPlan := none
  progress : Option ProgressTracker := none
  coverage_threshold : ℚ := 7/10
  max_turns : Int := 0
deriving DecidableEq, Repr

/-- `_stop_reason` from main.py. `if state.max_turns and ...` is Python int
truthiness (`max_turns ≠ 0`); `if state.progress and state.topic_plan` is
`None`-ness of the two optional objects. -/
def _stop_reason (state : SessionState) : Option String :=
  if state.max_turns ≠ 0 ∧ (state.history.length : Int) ≥ state.max_turns then
    some ("Достигнут лимит вопросов (" ++ toString state.max_turns ++ ").")
  else
    match state.progress, state.topic_plan with
    | some progress, some plan =>
      if progress.must_coverage ≥ plan.rules.target_must_coverage ∧
          progress.overall_coverage ≥ state.coverage_threshold then
        some "Достигнуто целевое покрытие тем."
      else none
    | _, _ => none

/-- `update_difficulty` from logic.py. The Python function mutates
`state.recent_scores` and returns the new level; here it returns
`(new_level, new_recent_scores)`. `scores = state.recent_scores[-1:] +
[analysis.answer_score]` has length 2 exactly when `recent_scores` is
nonempty, with `scores[-2]` the previous latest score. -/
def update_difficulty (state : SessionState) (analysis : ObserverAnalysis) :
    Int × List Int :=
  let scores := state.recent_scores.drop (state.recent_scores.length - 1) ++
    [analysis.answer_score]
  let recent := state.recent_scores ++ [analysis.answer_score]
  let recent := recent.drop (recent.length - 3)
  let delta := analysis.difficulty_delta
  let delta :=
    match scores with
    | [prev, newest] =>
      let d := if newest ≥ 3 ∧ prev ≥ 3 then max delta 1 else delta
      if newest ≤ 1 ∧ prev ≤ 1 then min d (-1) else d
    | _ => delta
  (max 1 (min 5 (state.difficulty + delta)), recent)

/-! ## Call sequences over the progress tracker -/

/-- One `record_progress` call's arguments. -/
structure RecordCall where
  topic_id : String
  turn_id : Int
  question : String
  score : ℚ
  difficulty : Int
deriving DecidableEq, Repr

/-- Apply one `record_progress` call to a plan/tracker pair. -/
def recordStep (s : TopicPlan × ProgressTracker) (c : RecordCall) :
    TopicPlan × ProgressTracker :=
  record_progress s.1 s.2 c.topic_id c.turn_id c.question c.score c.difficulty

/-- Apply a sequence of `record_progress` calls in order. -/
def applyCalls (s : TopicPlan × ProgressTracker) (cs : List RecordCall) :
    TopicPlan × ProgressTracker :=
  cs.foldl recordStep s

/-! ## Helper lemmas -/

lemma seqDelta (dd p n : Int) :
    (if n ≤ 1 ∧ p ≤ 1 then min (if 3 ≤ n ∧ 3 ≤ p then max dd 1 else dd) (-1)
     else if 3 ≤ n ∧ 3 ≤ p then max dd 1 else dd) =
    (if 3 ≤ p ∧ 3 ≤ n then max dd 1
     else if p ≤ 1 ∧ n ≤ 1 then min dd (-1) else dd) := by
  split_ifs <;> first | rfl | omega

/-- C4: `update_difficulty` returns `clamp(current_difficulty + delta', 1, 5)`
where `delta'` is the requested `difficulty_delta`, forced up to at least +1
when the previously latest score and the new score are both ≥ 3, and forced
down to at most -1 when both are ≤ 1; the result always lies in [1,5], and
the retained history is the last 3 raw scores. -/
theorem update_difficulty_spec (st : SessionState) (a : ObserverAnalysis) :
    (st.recent_scores = [] →
      (update_difficulty st a).1 = max 1 (min 5 (st.difficulty + a.difficulty_delta)))
    ∧ (∀ l pv, st.recent_scores = l ++ [pv] →
        (update_difficulty st a).1 = max 1 (min 5 (st.difficulty +
          (if 3 ≤ pv ∧ 3 ≤ a.answer_score then max a.difficulty_delta 1
           else if pv ≤ 1 ∧ a.answer_score ≤ 1 then min a.difficulty_delta (-1)
           else a.difficulty_delta))))
    ∧ 1 ≤ (update_difficulty st a).1 ∧ (update_difficulty st a).1 ≤ 5
    ∧ (update_difficulty st a).2 <:+ st.recent_scores ++ [a.answer_score]
    ∧ (update_difficulty st a).2.length = min (st.recent_scores.length + 1) 3 := by
  refine ⟨?_, ?_, ?_, ?_, ?_, ?_⟩
  · intro h
    unfold update_difficulty
    rw [h]
    rfl
  · intro l pv h
    unfold update_difficulty
    rw [h]
    have hd : (l ++ [pv]).drop ((l ++ [pv]).length - 1) = [pv] := by
      have : (l ++ [pv]).length - 1 = l.length := by simp
      rw [this, List.drop_left]
    rw [hd]
    simp only [List.singleton_append]
    rw [seqDelta]
  · unfold update_difficulty
    dsimp only
    exact le_max_left _ _
  · unfold update_difficulty
    dsimp only
    exact max_le (by norm_num) (min_le_left _ _)
  · unfold update_difficulty
    dsimp only
    exact List.drop_suffix _ _
  · unfold update_difficulty
    dsimp only
    rw [List.length_drop, List.length_append]
    simp only [List.length_singleton]
    omega

def c4State : SessionState := { recent_scores := [4], difficulty := 3 }

def c4Analysis : ObserverAnalysis := { answer_score := 4, difficulty_delta := 0 }

theorem update_difficulty_spec_witness : (update_difficulty c4State c4Analysis).1 = 4 := by
  have h := (update_difficulty_spec c4State c4Analysis).2.1 [] 4 rfl
  rw [h]
  decide

/-- C2: the stop evaluator of main.py returns a non-null reason iff the
number of completed turns reached `max_total_turns`, or must coverage and
overall coverage both reached their targets (for a state whose plan,
progress and turn limit are populated, as `run_interview` populates them). -/
theorem stop_reason_iff (st : SessionState) (p : ProgressTracker) (tp : TopicPlan)
    (hp : st.progress = some p) (htp : st.topic_plan = some tp)
    (hmt : st.max_turns = tp.rules.max_total_turns)
    (hm0 : tp.rules.max_total_turns ≠ 0) :
    ((_stop_reason st).isSome = true) ↔
      ((st.history.length : Int) ≥ tp.rules.max_total_turns ∨
       (p.must_coverage ≥ tp.rules.target_must_coverage ∧
        p.overall_coverage ≥ st.coverage_threshold)) := by
  unfold _stop_reason
  rw [hp, htp, hmt]
  by_cases h1 : (st.history.length : Int) ≥ tp.rules.max_total_turns
  · simp [h1, hm0]
  · rw [if_neg (by tauto)]
    by_cases h2 : p.must_coverage ≥ tp.rules.target_must_coverage ∧
        p.overall_coverage ≥ st.coverage_threshold
    · simp [h1, h2]
    · simp [h1, h2]

def c2Plan : TopicPlan :=
  { role := "r", grade := "junior", topics := [],
    rules := { target_must_coverage := 85/100, max_total_turns := 10, topic_cooldown := 1 } }

def c2Turn : ConversationTurn :=
  { turn_id := 1, agent_visible_message := "", user_message := "", internal_thoughts := "" }

def c2State : SessionState :=
  { history := List.replicate 10 c2Turn, topic_plan := some c2Plan,
    progress := some {}, max_turns := 10 }

theorem stop_reason_iff_witness : (_stop_reason c2State).isSome = true :=
  (stop_reason_iff c2State {} c2Plan rfl rfl rfl (by decide)).mpr (Or.inl (by decide))

/-! C5 concrete scenario data: a covered topic last asked at turn 5 under
cooldown 2. -/

def c5Topic : Topic :=
  { id := "t", name := "T", priority := .must, min_questions := 1, status := .covered }

def c5Plan : TopicPlan :=
  { role := "r", grade := "junior", topics := [c5Topic],
    rules := { target_must_coverage := 85/100, max_total_turns := 10, topic_cooldown := 2 } }

def c5Tracker : ProgressTracker :=
  { topic_stats := [("t", { asked := 2, avg_score := 1, last_turn := 5 })] }

/-- C5: a topic is excluded from the selector's eligible pool iff it is
covered, the cooldown is positive, it has been asked (`last_turn ≥ 0`) and
`current_turn - last_turn ≤ cooldown`; concretely, a covered topic with
`last_turn = 5` under cooldown 2 is ineligible at turns 6 and 7 and eligible
again at turn 8. -/
theorem eligible_topics_spec :
    (∀ (plan : TopicPlan) (tracker : ProgressTracker) (current_turn : Int) (t : Topic),
      t ∈ _eligible_topics plan tracker current_turn ↔
        t ∈ plan.topics ∧ ¬(t.status = Status.covered ∧ 0 < plan.rules.topic_cooldown ∧
          0 ≤ (statsD tracker t.id).last_turn ∧
          current_turn - (statsD tracker t.id).last_turn ≤ plan.rules.topic_cooldown))
    ∧ c5Topic ∉ _eligible_topics c5Plan c5Tracker 6
    ∧ c5Topic ∉ _eligible_topics c5Plan c5Tracker 7
    ∧ c5Topic ∈ _eligible_topics c5Plan c5Tracker 8 := by
  refine ⟨?_, by decide, by decide, by decide⟩
  intro plan tracker current_turn t
  unfold _eligible_topics
  rw [List.mem_filter]
  simp only [decide_eq_true_eq]

/-! ## Projection lemmas for `recalc_coverage`, `setStats`, `record_progress` -/

def newTopicsOf (p : TopicPlan) (tr : ProgressTracker) : List Topic :=
  p.topics.map (fun t => recalcTopic tr.coverage_threshold (statsD tr t.id) t)

def mustScoresOf (p : TopicPlan) (tr : ProgressTracker) : List ℚ :=
  ((newTopicsOf p tr).filter (fun t => decide (t.priority = Priority.must))).map
    Topic.coverage_score

def niceScoresOf (p : TopicPlan) (tr : ProgressTracker) : List ℚ :=
  ((newTopicsOf p tr).filter (fun t => decide (¬t.priority = Priority.must))).map
    Topic.coverage_score

lemma recalc_fst (p : TopicPlan) (tr : ProgressTracker) :
    (recalc_coverage p tr).1 = { p with topics := newTopicsOf p tr } := rfl

lemma recalc_snd_stats (p : TopicPlan) (tr : ProgressTracker) :
    (recalc_coverage p tr).2.topic_stats = tr.topic_stats := rfl

lemma recalc_snd_log (p : TopicPlan) (tr : ProgressTracker) :
    (recalc_coverage p tr).2.asked_questions = tr.asked_questions := rfl

lemma recalc_snd_threshold (p : TopicPlan) (tr : ProgressTracker) :
    (recalc_coverage p tr).2.coverage_threshold = tr.coverage_threshold := rfl

lemma recalc_must_eq (p : TopicPlan) (tr : ProgressTracker) :
    (recalc_coverage p tr).2.must_coverage =
      if mustScoresOf p tr ≠ [] then (mustScoresOf p tr).sum / ((mustScoresOf p tr).length : ℚ)
      else tr.must_coverage := rfl

lemma recalc_nice_eq (p : TopicPlan) (tr : ProgressTracker) :
    (recalc_coverage p tr).2.nice_coverage =
      if niceScoresOf p tr ≠ [] then (niceScoresOf p tr).sum / ((niceScoresOf p tr).length : ℚ)
      else tr.nice_coverage := rfl

lemma recalc_overall_eq (p : TopicPlan) (tr : ProgressTracker) :
    (recalc_coverage p tr).2.overall_coverage =
      if mustScoresOf p tr ++ niceScoresOf p tr ≠ [] then
        (mustScoresOf p tr ++ niceScoresOf p tr).sum /
          (((mustScoresOf p tr ++ niceScoresOf p tr)).length : ℚ)
      else tr.overall_coverage := rfl

lemma recalcTopic_fields (th : ℚ) (st : TopicStats) (t : Topic) :
    (recalcTopic th st t).id = t.id ∧ (recalcTopic th st t).priority = t.priority ∧
    (recalcTopic th st t).min_questions = t.min_questions ∧
    (recalcTopic th st t).name = t.name ∧ (recalcTopic th st t).tags = t.tags ∧
    (recalcTopic th st t).coverage_score =
      min ((st.asked : ℚ) / ((max t.min_questions 1 : Int) : ℚ)) 1 *
        max 0 (min st.avg_score 1) := by
  unfold recalcTopic
  dsimp only
  split <;> split <;> exact ⟨rfl, rfl, rfl, rfl, rfl, rfl⟩

lemma find_map_replace (s : List (String × TopicStats)) (tid : String) (v : TopicStats)
    (h : ∃ x ∈ s, x.1 = tid) :
    (s.map (fun q => if q.1 = tid then (q.1, v) else q)).find?
      (fun q => decide (q.1 = tid)) = some (tid, v) := by
  induction s with
  | nil => simp at h
  | cons q rest ih =>
    by_cases hq : q.1 = tid
    · simp only [List.map_cons, if_pos hq]
      rw [List.find?_cons_of_pos _ (by simpa using hq), hq]
    · obtain ⟨x, hx, hxid⟩ := h
      rcases List.mem_cons.mp hx with rfl | hx'
      · exact absurd hxid hq
      · simp only [List.map_cons, if_neg hq]
        rw [List.find?_cons_of_neg _ (by simpa using hq)]
        exact ih ⟨x, hx', hxid⟩

lemma find_append_single (s : List (String × TopicStats)) (tid : String) (v : TopicStats)
    (h : ∀ x ∈ s, ¬x.1 = tid) :
    (s ++ [(tid, v)]).find? (fun q => decide (q.1 = tid)) = some (tid, v) := by
  induction s with
  | nil => simp
  | cons q rest ih =>
    rw [List.cons_append,
      List.find?_cons_of_neg _ (by simpa using h q (List.mem_cons_self q rest))]
    exact ih (fun x hx => h x (List.mem_cons_of_mem q hx))

lemma find_setStats (s : List (String × TopicStats)) (tid : String) (v : TopicStats) :
    (setStats s tid v).find? (fun q => decide (q.1 = tid)) = some (tid, v) := by
  unfold setStats
  split
  · rename_i h
    rw [List.any_eq_true] at h
    obtain ⟨x, hx, hxid⟩ := h
    exact find_map_replace s tid v ⟨x, hx, of_decide_eq_true hxid⟩
  · rename_i h
    rw [List.any_eq_true] at h
    push_neg at h
    exact find_append_single s tid v
      (fun x hx hxid => by simpa [hxid] using h x hx)

lemma find_map_replace_other (s : List (String × TopicStats)) (tid : String)
    (v : TopicStats) (id2 : String) (hne : id2 ≠ tid) :
    (s.map (fun q => if q.1 = tid then (q.1, v) else q)).find?
      (fun q => decide (q.1 = id2)) = s.find? (fun q => decide (q.1 = id2)) := by
  induction s with
  | nil => rfl
  | cons q rest ih =>
    by_cases hq : q.1 = tid
    · have hq2 : ¬q.1 = id2 := fun hh => hne (hh ▸ hq)
      simp only [List.map_cons, if_pos hq]
      rw [List.find?_cons_of_neg _ (by simpa using hq2),
        List.find?_cons_of_neg _ (by simpa using hq2)]
      exact ih
    · simp only [List.map_cons, if_neg hq]
      by_cases hq2 : q.1 = id2
      · rw [List.find?_cons_of_pos _ (by simpa using hq2),
          List.find?_cons_of_pos _ (by simpa using hq2)]
      · rw [List.find?_cons_of_neg _ (by simpa using hq2),
          List.find?_cons_of_neg _ (by simpa using hq2)]
        exact ih

lemma find_append_single_other (s : List (String × TopicStats)) (tid : String)
    (v : TopicStats) (id2 : String) (hne : id2 ≠ tid) :
    (s ++ [(tid, v)]).find? (fun q => decide (q.1 = id2)) =
      s.find? (fun q => decide (q.1 = id2)) := by
  induction s with
  | nil =>
    rw [List.nil_append, List.find?_cons_of_neg _ (by simpa using Ne.symm hne)]
  | cons q rest ih =>
    by_cases hq2 : q.1 = id2
    · rw [List.cons_append, List.find?_cons_of_pos _ (by simpa using hq2),
        List.find?_cons_of_pos _ (by simpa using hq2)]
    · rw [List.cons_append, List.find?_cons_of_neg _ (by simpa using hq2),
        List.find?_cons_of_neg _ (by simpa using hq2)]
      exact ih

lemma find_setStats_other (s : List (String × TopicStats)) (tid : String) (v : TopicStats)
    (id2 : String) (hne : id2 ≠ tid) :
    (setStats s tid v).find? (fun q => decide (q.1 = id2)) =
      s.find? (fun q => decide (q.1 = id2)) := by
  unfold setStats
  split
  · exact find_map_replace_other s tid v id2 hne
  · exact find_append_single_other s tid v id2 hne

lemma statsD_set_same (tr : ProgressTracker) (s : List (String × TopicStats))
    (tid : String) (v : TopicStats) (hs : tr.topic_stats = setStats s tid v) :
    statsD tr tid = v := by
  unfold statsD
  rw [hs, find_setStats]
  rfl

lemma statsD_set_other (tr : ProgressTracker) (s : List (String × TopicStats))
    (tid : String) (v : TopicStats) (id2 : String) (hne : id2 ≠ tid)
    (hs : tr.topic_stats = setStats s tid v) :
    statsD tr id2 = (((s.find? (fun q => decide (q.1 = id2))).map Prod.snd).getD {}) := by
  unfold statsD
  rw [hs, find_setStats_other s tid v id2 hne]

/-- The mid-call tracker of `record_progress` (stats written, log appended,
coverage not yet recomputed). -/
def midTracker (tracker : ProgressTracker) (topic_id : String) (turn_id : Int)
    (question : String) (score : ℚ) (difficulty : Int) : ProgressTracker :=
  { tracker with
      topic_stats := setStats tracker.topic_stats topic_id
        { asked := (statsD tracker topic_id).asked + 1,
          avg_score := ((statsD tracker topic_id).avg_score *
              (((statsD tracker topic_id).asked + 1 - 1 : ℕ) : ℚ) + _normalize_score score) /
            (((statsD tracker topic_id).asked + 1 : ℕ) : ℚ),
          last_turn := turn_id },
      asked_questions := tracker.asked_questions ++
        [{ turn_id := turn_id, question := question, topic_id := topic_id,
           difficulty := difficulty }] }

lemma record_eq (plan : TopicPlan) (tracker : ProgressTracker) (tid : String)
    (turn : Int) (q : String) (score : ℚ) (diff : Int) :
    record_progress plan tracker tid turn q score diff =
      recalc_coverage plan (midTracker tracker tid turn q score diff) := rfl

def mustFilter (l : List Topic) : List Topic :=
  l.filter (fun t => decide (t.priority = Priority.must))

def niceFilter (l : List Topic) : List Topic :=
  l.filter (fun t => decide (t.priority = Priority.nice))

lemma recalc_topics (p : TopicPlan) (tr : ProgressTracker) :
    (recalc_coverage p tr).1.topics = newTopicsOf p tr := rfl

lemma mustScoresOf_eq (p : TopicPlan) (tr : ProgressTracker) :
    mustScoresOf p tr = (mustFilter (newTopicsOf p tr)).map Topic.coverage_score := rfl

lemma niceScoresOf_eq (p : TopicPlan) (tr : ProgressTracker) :
    niceScoresOf p tr = (niceFilter (newTopicsOf p tr)).map Topic.coverage_score := by
  unfold niceScoresOf niceFilter
  congr 1
  apply List.filter_congr
  intro t _
  cases h : t.priority <;> simp [h]

lemma filter_split_sum (l : List Topic) :
    ((mustFilter l).map Topic.coverage_score).sum +
        ((niceFilter l).map Topic.coverage_score).sum =
      (l.map Topic.coverage_score).sum ∧
    (mustFilter l).length + (niceFilter l).length = l.length := by
  induction l with
  | nil => simp [mustFilter, niceFilter]
  | cons t rest ih =>
    unfold mustFilter niceFilter at ih ⊢
    rw [List.filter_cons, List.filter_cons]
    cases h : t.priority
    · rw [if_pos (by simp [h]), if_neg (by simp [h])]
      simp only [List.map_cons, List.sum_cons, List.length_cons]
      exact ⟨by rw [add_assoc, ih.1], by have h2 := ih.2; omega⟩
    · rw [if_neg (by simp [h]), if_pos (by simp [h])]
      simp only [List.map_cons, List.sum_cons, List.length_cons]
      constructor
      · rw [← ih.1]; ring
      · have h2 := ih.2; omega

/-- C1: after `recalc_coverage`, every topic's `coverage_score` equals
`min(asked / min_questions, 1) * clamp(avg_score, 0, 1)` (for plans whose
topics have `min_questions ≥ 1`, as the data model requires);
`must_coverage` is the unweighted mean of `coverage_score` over must
topics, `nice_coverage` over nice topics, `overall_coverage` over all
topics, and a ratio whose topic class is empty keeps its previous value. -/
theorem recalc_coverage_spec (plan : TopicPlan) (tracker : ProgressTracker)
    (hmq : ∀ t ∈ plan.topics, 1 ≤ t.min_questions) :
    (∀ i t t', plan.topics.get? i = some t →
       (recalc_coverage plan tracker).1.topics.get? i = some t' →
       t'.coverage_score =
         min (((statsD tracker t.id).asked : ℚ) / ((t.min_questions : Int) : ℚ)) 1 *
           max 0 (min (statsD tracker t.id).avg_score 1))
    ∧ (mustFilter (recalc_coverage plan tracker).1.topics ≠ [] →
        (recalc_coverage plan tracker).2.must_coverage =
          ((mustFilter (recalc_coverage plan tracker).1.topics).map Topic.coverage_score).sum /
            ((mustFilter (recalc_coverage plan tracker).1.topics).length : ℚ))
    ∧ (mustFilter (recalc_coverage plan tracker).1.topics = [] →
        (recalc_coverage plan tracker).2.must_coverage = tracker.must_coverage)
    ∧ (niceFilter (recalc_coverage plan tracker).1.topics ≠ [] →
        (recalc_coverage plan tracker).2.nice_coverage =
          ((niceFilter (recalc_coverage plan tracker).1.topics).map Topic.coverage_score).sum /
            ((niceFilter (recalc_coverage plan tracker).1.topics).length : ℚ))
    ∧ (niceFilter (recalc_coverage plan tracker).1.topics = [] →
        (recalc_coverage plan tracker).2.nice_coverage = tracker.nice_coverage)
    ∧ ((recalc_coverage plan tracker).1.topics ≠ [] →
        (recalc_coverage plan tracker).2.overall_coverage =
          (((recalc_coverage plan tracker).1.topics.map Topic.coverage_score).sum) /
            (((recalc_coverage plan tracker).1.topics.length : ℚ)))
    ∧ ((recalc_coverage plan tracker).1.topics = [] →
        (recalc_coverage plan tracker).2.overall_coverage = tracker.overall_coverage) := by
  refine ⟨?_, ?_, ?_, ?_, ?_, ?_, ?_⟩
  · intro i t t' ht ht'
    rw [recalc_topics] at ht'
    unfold newTopicsOf at ht'
    rw [List.get?_map, ht] at ht'
    have ht2 : t' = recalcTopic tracker.coverage_threshold (statsD tracker t.id) t :=
      (Option.some.inj ht').symm
    have hmem : t ∈ plan.topics := List.get?_mem ht
    have hmax : max t.min_questions 1 = t.min_questions := max_eq_left (hmq t hmem)
    rw [ht2, (recalcTopic_fields _ _ _).2.2.2.2.2, hmax]
  · intro h
    rw [recalc_topics] at h ⊢
    have h' : mustScoresOf plan tracker ≠ [] := by
      rw [mustScoresOf_eq]
      simpa [List.map_eq_nil] using h
    rw [recalc_must_eq, if_pos h', mustScoresOf_eq, List.length_map]
  · intro h
    have h' : mustScoresOf plan tracker = [] := by
      rw [mustScoresOf_eq, recalc_topics] at *
      rw [h]
      rfl
    rw [recalc_must_eq, if_neg (fun hh => hh h')]
  · intro h
    rw [recalc_topics] at h ⊢
    have h' : niceScoresOf plan tracker ≠ [] := by
      rw [niceScoresOf_eq]
      simpa [List.map_eq_nil] using h
    rw [recalc_nice_eq, if_pos h', niceScoresOf_eq, List.length_map]
  · intro h
    have h' : niceScoresOf plan tracker = [] := by
      rw [niceScoresOf_eq, recalc_topics] at *
      rw [h]
      rfl
    rw [recalc_nice_eq, if_neg (fun hh => hh h')]
  · intro h
    rw [recalc_topics] at h ⊢
    have hsplit := filter_split_sum (newTopicsOf plan tracker)
    have hlen : (mustScoresOf plan tracker ++ niceScoresOf plan tracker).length =
        (newTopicsOf plan tracker).length := by
      rw [List.length_append, mustScoresOf_eq, niceScoresOf_eq, List.length_map,
        List.length_map]
      exact hsplit.2
    have h' : mustScoresOf plan tracker ++ niceScoresOf plan tracker ≠ [] := by
      intro hh
      apply h
      have : (newTopicsOf plan tracker).length = 0 := by rw [← hlen, hh]; rfl
      exact List.length_eq_zero.mp this
    rw [recalc_overall_eq, if_pos h', hlen]
    congr 1
    rw [List.sum_append, mustScoresOf_eq, niceScoresOf_eq]
    exact hsplit.1
  · intro h
    rw [recalc_topics] at h
    have h' : mustScoresOf plan tracker ++ niceScoresOf plan tracker = [] := by
      rw [mustScoresOf_eq, niceScoresOf_eq, h]
      rfl
    rw [recalc_overall_eq, if_neg (fun hh => hh h')]

def c1Plan : TopicPlan :=
  { role := "r", grade := "junior",
    topics := [{ id := "t", name := "T", priority := .must, min_questions := 1 }],
    rules := {} }

def c1Tracker : ProgressTracker :=
  { topic_stats := [("t", { asked := 1, avg_score := 1, last_turn := 1 })] }

theorem recalc_coverage_spec_witness :
    (recalc_coverage c1Plan c1Tracker).2.must_coverage = 1 := by
  have h := (recalc_coverage_spec c1Plan c1Tracker (by decide)).2.1
    (by norm_num [recalc_topics, newTopicsOf, c1Plan, c1Tracker, statsD, recalcTopic,
      mustFilter, (by decide : Status.in_progress ≠ Status.covered)])
  rw [h]
  norm_num [recalc_topics, newTopicsOf, c1Plan, c1Tracker, statsD, recalcTopic, mustFilter,
    (by decide : Status.in_progress ≠ Status.covered)]

/-! ## Status transition lemmas -/

lemma recalcTopic_status_covered (th : ℚ) (st : TopicStats) (t : Topic)
    (h : t.status = Status.covered) :
    (recalcTopic th st t).status = Status.covered := by
  unfold recalcTopic
  simp [h]

lemma recalcTopic_covered_of (th : ℚ) (st : TopicStats) (t : Topic)
    (h1 : t.min_questions ≤ (st.asked : Int)) (h2 : th ≤ st.avg_score) :
    (recalcTopic th st t).status = Status.covered := by
  unfold recalcTopic
  dsimp only
  split
  · split
    · rfl
    · rename_i hcond
      exfalso
      exact hcond ⟨by simp, h1, h2⟩
  · split
    · rfl
    · rename_i hcond
      push_neg at hcond
      show t.status = Status.covered
      by_contra hne
      exact absurd h2 (not_le.mpr (hcond (by simpa using hne) h1))

lemma recalcTopic_pending_move (th : ℚ) (st : TopicStats) (t : Topic)
    (h : t.status = Status.pending) (ha : 0 < st.asked) :
    (recalcTopic th st t).status = Status.in_progress ∨
      (recalcTopic th st t).status = Status.covered := by
  unfold recalcTopic
  dsimp only
  split
  · split
    · right; rfl
    · left; rfl
  · rename_i hcond
    exact absurd ⟨ha, h⟩ hcond

lemma statsD_congr (tr1 tr2 : ProgressTracker) (x : String)
    (h : tr1.topic_stats = tr2.topic_stats) : statsD tr1 x = statsD tr2 x := by
  unfold statsD
  rw [h]

lemma recordStep_topics (s : TopicPlan × ProgressTracker) (c : RecordCall) :
    (recordStep s c).1.topics = s.1.topics.map (fun t =>
      recalcTopic s.2.coverage_threshold
        (statsD (midTracker s.2 c.topic_id c.turn_id c.question c.score c.difficulty) t.id)
        t) := rfl

lemma recordStep_threshold (s : TopicPlan × ProgressTracker) (c : RecordCall) :
    (recordStep s c).2.coverage_threshold = s.2.coverage_threshold := rfl

lemma recordStep_stats (s : TopicPlan × ProgressTracker) (c : RecordCall) :
    (recordStep s c).2.topic_stats =
      (midTracker s.2 c.topic_id c.turn_id c.question c.score c.difficulty).topic_stats := rfl

lemma recordStep_status (s : TopicPlan × ProgressTracker) (c : RecordCall) (i : ℕ)
    (t1 t2 : Topic)
    (h1 : s.1.topics.get? i = some t1)
    (h2 : (recordStep s c).1.topics.get? i = some t2) :
    (t1.status = Status.covered → t2.status = Status.covered)
    ∧ (t1.status = Status.pending →
        0 < (statsD (recordStep s c).2 t2.id).asked →
        t2.status = Status.in_progress ∨ t2.status = Status.covered)
    ∧ (t2.min_questions ≤ ((statsD (recordStep s c).2 t2.id).asked : Int) →
        (recordStep s c).2.coverage_threshold ≤ (statsD (recordStep s c).2 t2.id).avg_score →
        t2.status = Status.covered) := by
  rw [recordStep_topics, List.get?_map, h1] at h2
  have ht2 : t2 = recalcTopic s.2.coverage_threshold
      (statsD (midTracker s.2 c.topic_id c.turn_id c.question c.score c.difficulty) t1.id)
      t1 := (Option.some.inj h2).symm
  have hid : t2.id = t1.id := by rw [ht2]; exact (recalcTopic_fields _ _ _).1
  have hmq : t2.min_questions = t1.min_questions := by
    rw [ht2]; exact (recalcTopic_fields _ _ _).2.2.1
  have hst : statsD (recordStep s c).2 t2.id =
      statsD (midTracker s.2 c.topic_id c.turn_id c.question c.score c.difficulty) t1.id := by
    rw [hid]
    exact statsD_congr _ _ _ (recordStep_stats s c)
  refine ⟨?_, ?_, ?_⟩
  · intro hcov
    rw [ht2]
    exact recalcTopic_status_covered _ _ _ hcov
  · intro hpend hasked
    rw [hst] at hasked
    rw [ht2]
    exact recalcTopic_pending_move _ _ _ hpend hasked
  · intro hm hth
    rw [hst] at hm hth
    rw [hmq] at hm
    rw [recordStep_threshold] at hth
    rw [ht2]
    exact recalcTopic_covered_of _ _ _ hm hth

lemma applyCalls_covered (cs2 : List RecordCall) :
    ∀ (s : TopicPlan × ProgressTracker) (i : ℕ) (t1 t2 : Topic),
      s.1.topics.get? i = some t1 → (applyCalls s cs2).1.topics.get? i = some t2 →
      t1.status = Status.covered → t2.status = Status.covered := by
  induction cs2 with
  | nil =>
    intro s i t1 t2 h1 h2 hcov
    have : t2 = t1 := by
      rw [show applyCalls s [] = s from rfl, h1] at h2
      exact (Option.some.inj h2).symm
    rw [this]
    exact hcov
  | cons c rest ih =>
    intro s i t1 t2 h1 h2 hcov
    have hm : (recordStep s c).1.topics.get? i = some (recalcTopic s.2.coverage_threshold
        (statsD (midTracker s.2 c.topic_id c.turn_id c.question c.score c.difficulty) t1.id)
        t1) := by
      rw [recordStep_topics, List.get?_map, h1]
      rfl
    have h2' : (applyCalls (recordStep s c) rest).1.topics.get? i = some t2 := h2
    exact ih (recordStep s c) i _ t2 hm h2'
      (recalcTopic_status_covered _ _ _ hcov)

/-- C3: topic statuses follow the transition discipline under
`record_progress` sequences: `pending` moves to `in_progress` (or directly
to `covered`) once the topic has been asked; a topic becomes `covered` once
`asked ≥ min_questions` and `avg_score ≥ coverage_threshold`; and a
`covered` topic never leaves `covered` under any further calls. -/
theorem topic_status_discipline :
    (∀ (plan : TopicPlan) (tracker : ProgressTracker) (cs cs2 : List RecordCall) (i : ℕ)
       (t1 t2 : Topic),
       (applyCalls (plan, tracker) cs).1.topics.get? i = some t1 →
       (applyCalls (plan, tracker) (cs ++ cs2)).1.topics.get? i = some t2 →
       t1.status = Status.covered → t2.status = Status.covered)
    ∧ (∀ (plan : TopicPlan) (tracker : ProgressTracker) (cs : List RecordCall)
       (c : RecordCall) (i : ℕ) (t1 t2 : Topic),
       (applyCalls (plan, tracker) cs).1.topics.get? i = some t1 →
       (recordStep (applyCalls (plan, tracker) cs) c).1.topics.get? i = some t2 →
       ((t1.status = Status.pending →
           0 < (statsD (recordStep (applyCalls (plan, tracker) cs) c).2 t2.id).asked →
           t2.status = Status.in_progress ∨ t2.status = Status.covered)
        ∧ (t2.min_questions ≤
             ((statsD (recordStep (applyCalls (plan, tracker) cs) c).2 t2.id).asked : Int) →
           (recordStep (applyCalls (plan, tracker) cs) c).2.coverage_threshold ≤
             (statsD (recordStep (applyCalls (plan, tracker) cs) c).2 t2.id).avg_score →
           t2.status = Status.covered))) := by
  constructor
  · intro plan tracker cs cs2 i t1 t2 h1 h2 hcov
    rw [show applyCalls (plan, tracker) (cs ++ cs2) =
        applyCalls (applyCalls (plan, tracker) cs) cs2 from List.foldl_append _ _ _ _] at h2
    exact applyCalls_covered cs2 _ i t1 t2 h1 h2 hcov
  · intro plan tracker cs c i t1 t2 h1 h2
    exact (recordStep_status _ c i t1 t2 h1 h2).2

lemma recordStep_statsD_same (s : TopicPlan × ProgressTracker) (c : RecordCall) :
    statsD (recordStep s c).2 c.topic_id =
      { asked := (statsD s.2 c.topic_id).asked + 1,
        avg_score := ((statsD s.2 c.topic_id).avg_score *
            (((statsD s.2 c.topic_id).asked + 1 - 1 : ℕ) : ℚ) + _normalize_score c.score) /
          (((statsD s.2 c.topic_id).asked + 1 : ℕ) : ℚ),
        last_turn := c.turn_id } :=
  statsD_set_same _ _ _ _ (recordStep_stats s c)

def c3Plan : TopicPlan :=
  { role := "r", grade := "junior",
    topics := [{ id := "t", name := "T", priority := .must, min_questions := 1 }],
    rules := {} }

def c3Call : RecordCall :=
  { topic_id := "t", turn_id := 1, question := "q", score := 4, difficulty := 2 }

def c3Before : Topic := { id := "t", name := "T", priority := .must, min_questions := 1 }

def c3After : Topic :=
  { id := "t", name := "T", priority := .must, min_questions := 1,
    status := .covered, coverage_score := 1 }

theorem topic_status_discipline_witness : c3After.status = Status.covered := by
  have happ : applyCalls (c3Plan, ({} : ProgressTracker)) [] = (c3Plan, {}) := rfl
  have hstats : statsD (recordStep (applyCalls (c3Plan, ({} : ProgressTracker)) []) c3Call).2
      c3After.id = { asked := 1, avg_score := 1, last_turn := 1 } := by
    rw [happ, show c3After.id = c3Call.topic_id from rfl, recordStep_statsD_same]
    norm_num [statsD, c3Call, _normalize_score]
  have h2 : (recordStep (applyCalls (c3Plan, ({} : ProgressTracker)) []) c3Call).1.topics.get? 0 =
      some c3After := by
    rw [happ, recordStep_topics]
    norm_num [c3Plan, c3Call, c3Before, c3After, midTracker, statsD, setStats,
      _normalize_score, recalcTopic, (by decide : ¬Status.in_progress = Status.covered)]
  have h := (topic_status_discipline.2 c3Plan {} [] c3Call 0 c3Before c3After rfl h2).2
  apply h
  · rw [hstats]
    norm_num [c3After]
  · rw [hstats, happ, recordStep_threshold]
    norm_num

/-! ## C9: score normalization and the running mean -/

lemma applyCalls_stats (tid : String) (cs : List RecordCall) :
    ∀ (s : TopicPlan × ProgressTracker), (∀ c ∈ cs, c.topic_id = tid) →
      (statsD (applyCalls s cs).2 tid).asked = (statsD s.2 tid).asked + cs.length ∧
      (statsD (applyCalls s cs).2 tid).avg_score *
          (((statsD s.2 tid).asked : ℚ) + (cs.length : ℚ)) =
        (statsD s.2 tid).avg_score * ((statsD s.2 tid).asked : ℚ) +
          (cs.map (fun c => _normalize_score c.score)).sum := by
  induction cs with
  | nil =>
    intro s h
    simp [applyCalls]
  | cons c rest ih =>
    intro s h
    have hc : c.topic_id = tid := h c (List.mem_cons_self c rest)
    have hstep : statsD (recordStep s c).2 tid =
        { asked := (statsD s.2 tid).asked + 1,
          avg_score := ((statsD s.2 tid).avg_score *
              (((statsD s.2 tid).asked + 1 - 1 : ℕ) : ℚ) + _normalize_score c.score) /
            (((statsD s.2 tid).asked + 1 : ℕ) : ℚ),
          last_turn := c.turn_id } := by
      rw [← hc]
      exact recordStep_statsD_same s c
    have ih' := ih (recordStep s c) (fun x hx => h x (List.mem_cons_of_mem c hx))
    rw [hstep] at ih'
    have hlist : applyCalls s (c :: rest) = applyCalls (recordStep s c) rest := rfl
    set n := (statsD s.2 tid).asked with hn
    set a := (statsD s.2 tid).avg_score with ha
    constructor
    · rw [hlist, ih'.1]
      simp
      omega
    · rw [hlist]
      have h2 := ih'.2
      have hne : ((n : ℚ) + 1) ≠ 0 := by positivity
      have hsimp : ((n + 1 - 1 : ℕ) : ℚ) = (n : ℚ) := by push_cast; ring
      rw [hsimp] at h2
      have hcast : ((n + 1 : ℕ) : ℚ) = (n : ℚ) + 1 := by push_cast; ring
      rw [hcast] at h2
      have hdiv : (a * (n : ℚ) + _normalize_score c.score) / ((n : ℚ) + 1) * ((n : ℚ) + 1) =
          a * (n : ℚ) + _normalize_score c.score := div_mul_cancel₀ _ hne
      simp only [List.map_cons, List.sum_cons, List.length_cons]
      push_cast
      push_cast at h2
      nlinarith [h2, hdiv]

/-- C9: `record_progress` clamps the raw score into [0,4], divides by 4,
increments `asked`, updates `avg_score` to the running mean, sets
`last_turn`, and appends one log entry; after n same-topic calls starting
from fresh stats, `avg_score` is the arithmetic mean of the normalized
scores. -/
theorem record_progress_math :
    (∀ (plan : TopicPlan) (tracker : ProgressTracker) (tid : String) (turn : Int)
       (q : String) (score : ℚ) (diff : Int),
       (statsD (record_progress plan tracker tid turn q score diff).2 tid).asked =
         (statsD tracker tid).asked + 1
       ∧ (statsD (record_progress plan tracker tid turn q score diff).2 tid).avg_score =
           ((statsD tracker tid).avg_score * ((statsD tracker tid).asked : ℚ) +
             max 0 (min score 4) / 4) / (((statsD tracker tid).asked : ℚ) + 1)
       ∧ (statsD (record_progress plan tracker tid turn q score diff).2 tid).last_turn = turn
       ∧ (record_progress plan tracker tid turn q score diff).2.asked_questions =
           tracker.asked_questions ++
             [{ turn_id := turn, question := q, topic_id := tid, difficulty := diff }])
    ∧ (∀ (plan : TopicPlan) (tracker : ProgressTracker) (tid : String)
       (cs : List RecordCall),
       (∀ c ∈ cs, c.topic_id = tid) →
       (statsD tracker tid).asked = 0 → (statsD tracker tid).avg_score = 0 →
       (statsD (applyCalls (plan, tracker) cs).2 tid).avg_score =
         (cs.map (fun c => max 0 (min c.score 4) / 4)).sum / (cs.length : ℚ)) := by
  constructor
  · intro plan tracker tid turn q score diff
    have hstep := recordStep_statsD_same (plan, tracker)
      { topic_id := tid, turn_id := turn, question := q, score := score, difficulty := diff }
    have heq : record_progress plan tracker tid turn q score diff =
        recordStep (plan, tracker)
          { topic_id := tid, turn_id := turn, question := q, score := score,
            difficulty := diff } := rfl
    rw [heq, hstep]
    refine ⟨rfl, ?_, rfl, ?_⟩
    · show ((statsD tracker tid).avg_score * (((statsD tracker tid).asked + 1 - 1 : ℕ) : ℚ) +
          _normalize_score score) / (((statsD tracker tid).asked + 1 : ℕ) : ℚ) = _
      unfold _normalize_score
      push_cast
      ring_nf
    · rw [show (recordStep (plan, tracker)
          { topic_id := tid, turn_id := turn, question := q, score := score,
            difficulty := diff }).2.asked_questions =
          tracker.asked_questions ++
            [{ turn_id := turn, question := q, topic_id := tid, difficulty := diff }] from rfl]
  · intro plan tracker tid cs hall h0a h0v
    obtain ⟨ha, hv⟩ := applyCalls_stats tid cs (plan, tracker) hall
    rw [h0a, h0v] at hv
    simp only [Nat.cast_zero, zero_add, zero_mul] at hv
    have hnorm : (cs.map (fun c => max 0 (min c.score 4) / 4)).sum =
        (cs.map (fun c => _normalize_score c.score)).sum := by
      unfold _normalize_score
      rfl
    rw [hnorm]
    rcases List.eq_nil_or_concat cs with hnil | ⟨l, x, hx⟩
    · subst hnil
      simp only [List.length_nil, Nat.cast_zero, div_zero, List.map_nil, List.sum_nil]
      rw [show applyCalls (plan, tracker) [] = (plan, tracker) from rfl]
      exact h0v
    · have hlen : (cs.length : ℚ) ≠ 0 := by
        subst hx
        simp
        positivity
      rw [eq_div_iff hlen]
      exact hv

/-! ## C10: unknown topic ids leave the plan and coverage untouched -/

/-- C10: calling `record_progress` with a topic id that is not in the plan
never fails: it creates a fresh stats entry and appends a log entry, while
the plan (every topic's status and coverage_score) and the tracker's three
coverage ratios stay exactly unchanged (for any recalc-consistent state,
i.e. any state `recalc_coverage` leaves fixed, as all reachable states are). -/
theorem record_progress_unknown_topic (plan : TopicPlan) (tracker : ProgressTracker)
    (tid : String) (turn : Int) (q : String) (score : ℚ) (diff : Int)
    (hids : ∀ t ∈ plan.topics, t.id ≠ tid)
    (hfind : tracker.topic_stats.find? (fun p => decide (p.1 = tid)) = none)
    (hfix : recalc_coverage plan tracker = (plan, tracker)) :
    (record_progress plan tracker tid turn q score diff).1 = plan
    ∧ (record_progress plan tracker tid turn q score diff).2.must_coverage =
        tracker.must_coverage
    ∧ (record_progress plan tracker tid turn q score diff).2.nice_coverage =
        tracker.nice_coverage
    ∧ (record_progress plan tracker tid turn q score diff).2.overall_coverage =
        tracker.overall_coverage
    ∧ statsD (record_progress plan tracker tid turn q score diff).2 tid =
        { asked := 1, avg_score := max 0 (min score 4) / 4, last_turn := turn }
    ∧ (record_progress plan tracker tid turn q score diff).2.asked_questions =
        tracker.asked_questions ++
          [{ turn_id := turn, question := q, topic_id := tid, difficulty := diff }] := by
  have hstatsagree : ∀ t ∈ plan.topics,
      statsD (midTracker tracker tid turn q score diff) t.id = statsD tracker t.id := by
    intro t ht
    unfold statsD
    rw [show (midTracker tracker tid turn q score diff).topic_stats =
        setStats tracker.topic_stats tid _ from rfl]
    rw [find_setStats_other _ _ _ _ (hids t ht)]
  have hnew : newTopicsOf plan (midTracker tracker tid turn q score diff) =
      newTopicsOf plan tracker := by
    unfold newTopicsOf
    apply List.map_congr_left
    intro t ht
    rw [hstatsagree t ht]
    rfl
  have htop : newTopicsOf plan tracker = plan.topics := by
    have h := congrArg (fun x => x.1.topics) hfix
    simpa [recalc_topics] using h
  have hms : mustScoresOf plan (midTracker tracker tid turn q score diff) =
      mustScoresOf plan tracker := by
    unfold mustScoresOf
    rw [hnew]
  have hns : niceScoresOf plan (midTracker tracker tid turn q score diff) =
      niceScoresOf plan tracker := by
    unfold niceScoresOf
    rw [hnew]
  have hrec : record_progress plan tracker tid turn q score diff =
      recalc_coverage plan (midTracker tracker tid turn q score diff) :=
    record_eq plan tracker tid turn q score diff
  refine ⟨?_, ?_, ?_, ?_, ?_, ?_⟩
  · rw [hrec, recalc_fst, hnew, htop]
  · rw [hrec, recalc_must_eq, hms,
      show (midTracker tracker tid turn q score diff).must_coverage =
        tracker.must_coverage from rfl,
      ← recalc_must_eq plan tracker, hfix]
  · rw [hrec, recalc_nice_eq, hns,
      show (midTracker tracker tid turn q score diff).nice_coverage =
        tracker.nice_coverage from rfl,
      ← recalc_nice_eq plan tracker, hfix]
  · rw [hrec, recalc_overall_eq, hms, hns,
      show (midTracker tracker tid turn q score diff).overall_coverage =
        tracker.overall_coverage from rfl,
      ← recalc_overall_eq plan tracker, hfix]
  · rw [hrec]
    have h1 : statsD (recalc_coverage plan (midTracker tracker tid turn q score diff)).2 tid =
        statsD (midTracker tracker tid turn q score diff) tid :=
      statsD_congr _ _ _ (recalc_snd_stats _ _)
    rw [h1, statsD_set_same _ tracker.topic_stats tid _ rfl]
    have hz : statsD tracker tid = ({} : TopicStats) := by
      unfold statsD
      rw [hfind]
      rfl
    rw [hz]
    unfold _normalize_score
    norm_num
  · rw [hrec, recalc_snd_log]
    rfl

def c10Plan : TopicPlan :=
  { role := "r", grade := "junior",
    topics := [{ id := "t", name := "T", priority := .must, min_questions := 1 }],
    rules := {} }

theorem record_progress_unknown_topic_witness :
    (record_progress c10Plan {} "z" 3 "q" 2 1).2.overall_coverage = 0 := by
  have hfix : recalc_coverage c10Plan ({} : ProgressTracker) = (c10Plan, {}) := by
    have ht : newTopicsOf c10Plan ({} : ProgressTracker) = c10Plan.topics := by
      norm_num [newTopicsOf, c10Plan, statsD, recalcTopic]
    have hm : mustScoresOf c10Plan ({} : ProgressTracker) = [0] := by
      rw [mustScoresOf_eq, ht]
      norm_num [mustFilter, c10Plan]
    have hn : niceScoresOf c10Plan ({} : ProgressTracker) = [] := by
      rw [niceScoresOf_eq, ht]
      norm_num [niceFilter, c10Plan, (by decide : ¬Priority.must = Priority.nice)]
    have h1 := recalc_fst c10Plan ({} : ProgressTracker)
    have h2 := recalc_must_eq c10Plan ({} : ProgressTracker)
    have h3 := recalc_nice_eq c10Plan ({} : ProgressTracker)
    have h4 := recalc_overall_eq c10Plan ({} : ProgressTracker)
    rw [hm] at h2
    rw [hn] at h3
    rw [hm, hn] at h4
    norm_num at h2 h3 h4
    have h5 : (recalc_coverage c10Plan ({} : ProgressTracker)).2 = ({} : ProgressTracker) := by
      have hst := recalc_snd_stats c10Plan ({} : ProgressTracker)
      have hlg := recalc_snd_log c10Plan ({} : ProgressTracker)
      have hth := recalc_snd_threshold c10Plan ({} : ProgressTracker)
      cases hh : (recalc_coverage c10Plan ({} : ProgressTracker)).2
      rw [hh] at hst hlg hth h2 h3 h4
      simp only at hst hlg hth h2 h3 h4
      simp [hst, hlg, hth, h2, h3, h4]
    have h6 : (recalc_coverage c10Plan ({} : ProgressTracker)).1 = c10Plan := by
      rw [h1, ht]
    rw [Prod.ext_iff]
    exact ⟨h6, h5⟩
  have h := (record_progress_unknown_topic c10Plan {} "z" 3 "q" 2 1
    (by decide) rfl hfix).2.2.2.1
  rw [h]

/-! ## Selector lemmas and claims about `select_next_topic` -/

lemma findSome_find_mem (pids : List String) (el : List Topic) (t : Topic)
    (h : pids.findSome? (fun pid => el.find? (fun topic => decide (topic.id = pid ∧
      (topic.status = Status.pending ∨ topic.status = Status.in_progress)))) = some t) :
    t ∈ el := by
  induction pids with
  | nil => exact absurd h (by simp)
  | cons pid rest ih =>
    rw [List.findSome?_cons] at h
    cases hf : el.find? (fun topic => decide (topic.id = pid ∧
        (topic.status = Status.pending ∨ topic.status = Status.in_progress))) with
    | some u =>
      rw [hf] at h
      exact (Option.some.inj h) ▸ List.mem_of_find?_eq_some hf
    | none =>
      rw [hf] at h
      exact ih h

lemma preferred_mem (plan : TopicPlan) (el : List Topic) (ct : Int) (t : Topic)
    (h : _preferred_start_topic plan el ct = some t) : t ∈ el := by
  unfold _preferred_start_topic at h
  split at h
  · exact absurd h (by simp)
  · dsimp only at h
    split at h
    · exact absurd h (by simp)
    · exact findSome_find_mem _ el t h

lemma preferred_none_of_ct (plan : TopicPlan) (el : List Topic) (ct : Int)
    (h : ct ≠ 1) : _preferred_start_topic plan el ct = none := by
  unfold _preferred_start_topic
  rw [if_pos h]

/-- C8 (amended): for every plan with a nonempty topic list, every tracker
state, turn number and base difficulty, `select_next_topic` returns a
selection (never fails) whose topic is one of the plan's topics; when
cooldown filtering removes every topic it falls back to the full list. -/
theorem select_next_topic_total (plan : TopicPlan) (tracker : ProgressTracker)
    (ct bd : Int) (hne : plan.topics ≠ []) :
    (select_next_topic plan tracker ct bd).isSome = true
    ∧ ∀ sel, select_next_topic plan tracker ct bd = some sel →
        sel.topic ∈ plan.topics := by
  unfold select_next_topic
  dsimp only
  generalize heq : (if (_eligible_topics plan tracker ct).isEmpty = true then plan.topics
      else _eligible_topics plan tracker ct) = el
  have hel : ∀ x ∈ el, x ∈ plan.topics := by
    rw [← heq]
    split
    · exact fun x hx => hx
    · exact fun x hx => (List.mem_filter.mp hx).1
  have helne : el ≠ [] := by
    rw [← heq]
    split
    · exact hne
    · rename_i h
      intro hh
      rw [hh] at h
      exact h rfl
  split
  · rename_i pref hpref
    refine ⟨rfl, ?_⟩
    intro sel hsel
    have hs : sel.topic = pref := by
      cases Option.some.inj hsel
      rfl
    rw [hs]
    exact hel pref (preferred_mem _ _ _ _ hpref)
  · rename_i hpref
    have hpoolsub : ∀ x ∈ (if tracker.must_coverage < plan.rules.target_must_coverage ∧
        ¬el.filter (fun t => decide (t.priority = Priority.must ∧
          (t.status = Status.pending ∨ t.status = Status.in_progress))) = []
        then el.filter (fun t => decide (t.priority = Priority.must ∧
          (t.status = Status.pending ∨ t.status = Status.in_progress)))
        else el), x ∈ plan.topics := by
      split
      · exact fun x hx => hel x (List.mem_filter.mp hx).1
      · exact hel
    have hpoolne : (if tracker.must_coverage < plan.rules.target_must_coverage ∧
        ¬el.filter (fun t => decide (t.priority = Priority.must ∧
          (t.status = Status.pending ∨ t.status = Status.in_progress))) = []
        then el.filter (fun t => decide (t.priority = Priority.must ∧
          (t.status = Status.pending ∨ t.status = Status.in_progress)))
        else el) ≠ [] := by
      split
      · rename_i hcond
        exact hcond.2
      · exact helne
    split
    · rename_i hsort
      exfalso
      have hperm := List.perm_insertionSort (topicLe tracker)
        (if tracker.must_coverage < plan.rules.target_must_coverage ∧
          ¬el.filter (fun t => decide (t.priority = Priority.must ∧
            (t.status = Status.pending ∨ t.status = Status.in_progress))) = []
          then el.filter (fun t => decide (t.priority = Priority.must ∧
            (t.status = Status.pending ∨ t.status = Status.in_progress)))
          else el)
      rw [hsort] at hperm
      exact hpoolne (List.Perm.nil_eq hperm).symm
    · rename_i chosen rest hsort
      refine ⟨rfl, ?_⟩
      intro sel hsel
      have hs : sel.topic = chosen := by
        cases Option.some.inj hsel
        rfl
      have hchosen : chosen ∈ List.insertionSort (topicLe tracker)
          (if tracker.must_coverage < plan.rules.target_must_coverage ∧
            ¬el.filter (fun t => decide (t.priority = Priority.must ∧
              (t.status = Status.pending ∨ t.status = Status.in_progress))) = []
            then el.filter (fun t => decide (t.priority = Priority.must ∧
              (t.status = Status.pending ∨ t.status = Status.in_progress)))
            else el) := by
        rw [hsort]
        exact List.mem_cons_self _ _
      rw [List.mem_insertionSort] at hchosen
      rw [hs]
      exact hpoolsub chosen hchosen

def c8Plan : TopicPlan :=
  { role := "r", grade := "junior", topics := [],
    rules := { target_must_coverage := 0, max_total_turns := 10, topic_cooldown := 1 } }

/-- C8 counterexample: with an empty topic list `select_next_topic` has no
topic to return (Python raises `IndexError` at `sorted_pool[0]`), refuting
the claim for literally every plan. -/
theorem select_next_topic_total_counterexample :
    select_next_topic c8Plan {} 2 3 = none := rfl

def c8Topic : Topic := { id := "t", name := "T", priority := .must, min_questions := 1 }

def c8FullPlan : TopicPlan :=
  { role := "r", grade := "junior", topics := [c8Topic],
    rules := { target_must_coverage := 0, max_total_turns := 10, topic_cooldown := 1 } }

theorem select_next_topic_total_witness :
    (select_next_topic c8FullPlan {} 2 3).isSome = true :=
  (select_next_topic_total c8FullPlan {} 2 3 (by decide)).1

/-- C6 (amended): whenever the start-bias path does not apply
(`current_turn ≠ 1`), if `must_coverage < target_must_coverage` and at least
one eligible must-priority topic with status pending or in_progress exists,
the returned selection's topic has priority must. (As stated over every
`current_turn` and grade the claim fails: at turn 1 the grade start-bias
list can pick a nice-priority topic, see the counterexample.) -/
theorem select_must_gating (plan : TopicPlan) (tracker : ProgressTracker) (ct bd : Int)
    (t0 : Topic) (hct : ct ≠ 1)
    (hcov : tracker.must_coverage < plan.rules.target_must_coverage)
    (h0 : t0 ∈ _eligible_topics plan tracker ct)
    (hp : t0.priority = Priority.must)
    (hs : t0.status = Status.pending ∨ t0.status = Status.in_progress) :
    (select_next_topic plan tracker ct bd).isSome = true
    ∧ ∀ sel, select_next_topic plan tracker ct bd = some sel →
        sel.topic.priority = Priority.must := by
  unfold select_next_topic
  dsimp only
  have hne0 : ¬(_eligible_topics plan tracker ct).isEmpty = true := by
    intro hh
    rw [List.isEmpty_iff] at hh
    rw [hh] at h0
    exact absurd h0 (List.not_mem_nil t0)
  rw [if_neg hne0, preferred_none_of_ct plan _ ct hct]
  dsimp only
  have hmc : t0 ∈ (_eligible_topics plan tracker ct).filter
      (fun t => decide (t.priority = Priority.must ∧
        (t.status = Status.pending ∨ t.status = Status.in_progress))) := by
    rw [List.mem_filter]
    refine ⟨h0, ?_⟩
    simp [hp, hs]
  have hmcne : (_eligible_topics plan tracker ct).filter
      (fun t => decide (t.priority = Priority.must ∧
        (t.status = Status.pending ∨ t.status = Status.in_progress))) ≠ [] :=
    List.ne_nil_of_mem hmc
  rw [if_pos ⟨hcov, hmcne⟩]
  split
  · rename_i hsort
    exfalso
    have hperm := List.perm_insertionSort (topicLe tracker)
      ((_eligible_topics plan tracker ct).filter
        (fun t => decide (t.priority = Priority.must ∧
          (t.status = Status.pending ∨ t.status = Status.in_progress))))
    rw [hsort] at hperm
    exact hmcne (List.Perm.nil_eq hperm).symm
  · rename_i chosen rest hsort
    refine ⟨rfl, ?_⟩
    intro sel hsel
    have hsc : sel.topic = chosen := by
      cases Option.some.inj hsel
      rfl
    have hchosen : chosen ∈ List.insertionSort (topicLe tracker)
        ((_eligible_topics plan tracker ct).filter
          (fun t => decide (t.priority = Priority.must ∧
            (t.status = Status.pending ∨ t.status = Status.in_progress)))) := by
      rw [hsort]
      exact List.mem_cons_self _ _
    rw [List.mem_insertionSort] at hchosen
    have hpred := (List.mem_filter.mp hchosen).2
    rw [hsc]
    exact (of_decide_eq_true hpred).1

def c6RelTopic : Topic :=
  { id := "reliability", name := "Reliability", priority := .nice, min_questions := 1 }

def c6GitTopic : Topic :=
  { id := "git_basics", name := "Git basics", priority := .must, min_questions := 2 }

def c6Plan : TopicPlan :=
  { role := "r", grade := "senior", topics := [c6RelTopic, c6GitTopic],
    rules := { target_must_coverage := 85/100, max_total_turns := 16, topic_cooldown := 2 } }

/-- C6 counterexample: at `current_turn = 1` with grade Senior, even though
`must_coverage < target` and an eligible pending must topic exists, the
start-bias path returns the nice-priority topic `reliability`. -/
theorem select_must_gating_counterexample :
    ({} : ProgressTracker).must_coverage < c6Plan.rules.target_must_coverage
    ∧ c6GitTopic ∈ _eligible_topics c6Plan {} 1
    ∧ c6GitTopic.priority = Priority.must
    ∧ c6GitTopic.status = Status.pending
    ∧ (select_next_topic c6Plan {} 1 3).map (fun s => s.topic.priority) =
        some Priority.nice := by
  refine ⟨by norm_num [c6Plan], by decide, rfl, rfl, rfl⟩

def c6WPlan : TopicPlan :=
  { role := "r", grade := "senior", topics := [c6RelTopic, c6GitTopic],
    rules := { target_must_coverage := 1, max_total_turns := 16, topic_cooldown := 2 } }

theorem select_must_gating_witness :
    (select_next_topic c6WPlan {} 2 3).isSome = true :=
  (select_must_gating c6WPlan {} 2 3 c6GitTopic (by decide) (by decide) (by decide) rfl
    (Or.inl rfl)).1

/-! ## C7: invalid grade strings -/

lemma relabelTopic_proj (lang fn : String) (ft : List String) (t : Topic) :
    (relabelTopic lang fn ft t).id = t.id ∧
    (relabelTopic lang fn ft t).priority = t.priority ∧
    (relabelTopic lang fn ft t).min_questions = t.min_questions ∧
    (relabelTopic lang fn ft t).status = t.status ∧
    (relabelTopic lang fn ft t).coverage_score = t.coverage_score := by
  unfold relabelTopic
  dsimp only
  repeat' split
  all_goals exact ⟨rfl, rfl, rfl, rfl, rfl⟩

lemma bumpDjango_proj (t : Topic) (hp : t.priority = Priority.must)
    (hm : t.min_questions = 2) :
    (bumpDjango t).id = t.id ∧ (bumpDjango t).priority = Priority.must ∧
    (bumpDjango t).min_questions = 2 ∧ (bumpDjango t).status = t.status ∧
    (bumpDjango t).coverage_score = t.coverage_score := by
  unfold bumpDjango
  split
  · exact ⟨rfl, rfl, by simp [hm], rfl, rfl⟩
  · exact ⟨rfl, hp, hm, rfl, rfl⟩

lemma base_topics_shape :
    ∀ t ∈ BACKEND_BASE_TOPICS, t.priority = Priority.must ∧ t.min_questions = 2 := by
  decide

/-- C7 (amended): for every grade string that is not Junior, Middle or
Senior (case-insensitive), `build_topic_plan` does not fail; it uses the
base (Junior) topic set, but pairs it with the Senior-tier rule set
`{target_must=0.92, max_turns=16, cooldown=2}` (the `else` branch), not the
Junior-tier rules the spec describes. -/
theorem build_topic_plan_invalid_grade (reSearch : String → String → Bool)
    (role grade experience_text : String)
    (h1 : strLower grade ≠ "junior") (h2 : strLower grade ≠ "middle")
    (h3 : strLower grade ≠ "senior") :
    (build_topic_plan reSearch role grade experience_text).rules =
      { target_must_coverage := 92/100, max_total_turns := 16, topic_cooldown := 2 }
    ∧ (build_topic_plan reSearch role grade experience_text).topics.map
        (fun t => (t.id, t.priority, t.min_questions, t.status, t.coverage_score)) =
      BACKEND_BASE_TOPICS.map
        (fun t => (t.id, t.priority, t.min_questions, t.status, t.coverage_score)) := by
  have hbase : get_backend_topics_for_grade grade = BACKEND_BASE_TOPICS := by
    have hms : ¬(strLower grade = "middle" ∨ strLower grade = "senior") := by
      rintro (h | h)
      · exact h2 h
      · exact h3 h
    unfold get_backend_topics_for_grade
    dsimp only
    rw [if_neg hms, if_neg h3]
  constructor
  · unfold build_topic_plan
    dsimp only
    rw [if_neg h1, if_neg h2]
  · unfold build_topic_plan _apply_language_and_framework
    dsimp only
    rw [hbase]
    split
    · rw [List.map_map, List.map_map]
      apply List.map_congr_left
      intro t ht
      obtain ⟨hpm, hmq⟩ := base_topics_shape t ht
      have hr := relabelTopic_proj
        (_infer_primary_language reSearch (strLower role) (strLower experience_text))
        (_infer_framework reSearch (strLower experience_text)
          (_infer_primary_language reSearch (strLower role) (strLower experience_text))).1
        (_infer_framework reSearch (strLower experience_text)
          (_infer_primary_language reSearch (strLower role) (strLower experience_text))).2.1
        t
      have hb := bumpDjango_proj _ (hr.2.1.trans hpm) (hr.2.2.1.trans hmq)
      simp only [Function.comp_apply]
      rw [Prod.mk.injEq]
      refine ⟨hb.1.trans hr.1, ?_⟩
      rw [Prod.mk.injEq]
      refine ⟨hb.2.1.trans hpm.symm, ?_⟩
      rw [Prod.mk.injEq]
      refine ⟨hb.2.2.1.trans hmq.symm, ?_⟩
      rw [Prod.mk.injEq]
      exact ⟨hb.2.2.2.1.trans hr.2.2.2.1, hb.2.2.2.2.trans hr.2.2.2.2⟩
    · rw [List.map_map]
      apply List.map_congr_left
      intro t ht
      have hr := relabelTopic_proj
        (_infer_primary_language reSearch (strLower role) (strLower experience_text))
        (_infer_framework reSearch (strLower experience_text)
          (_infer_primary_language reSearch (strLower role) (strLower experience_text))).1
        (_infer_framework reSearch (strLower experience_text)
          (_infer_primary_language reSearch (strLower role) (strLower experience_text))).2.1
        t
      simp only [Function.comp_apply]
      rw [Prod.mk.injEq]
      refine ⟨hr.1, ?_⟩
      rw [Prod.mk.injEq]
      refine ⟨hr.2.1, ?_⟩
      rw [Prod.mk.injEq]
      refine ⟨hr.2.2.1, ?_⟩
      rw [Prod.mk.injEq]
      exact ⟨hr.2.2.2.1, hr.2.2.2.2⟩

/-- C7 counterexample: the invalid grade "Intern" gets the Senior-tier rule
set `{0.92, 16, 2}`, not the Junior-tier `{0.85, 10, 1}` the claim asserts. -/
theorem build_topic_plan_invalid_grade_counterexample :
    (build_topic_plan (fun _ _ => false) "Backend" "Intern" "").rules =
      { target_must_coverage := 92/100, max_total_turns := 16, topic_cooldown := 2 }
    ∧ (build_topic_plan (fun _ _ => false) "Backend" "Intern" "").rules.target_must_coverage
        ≠ 85/100
    ∧ (build_topic_plan (fun _ _ => false) "Backend" "Intern" "").rules.max_total_turns
        ≠ 10 := by
  have h : (build_topic_plan (fun _ _ => false) "Backend" "Intern" "").rules =
      { target_must_coverage := 92/100, max_total_turns := 16, topic_cooldown := 2 } := rfl
  refine ⟨h, ?_, ?_⟩
  · rw [h]
    norm_num
  · rw [h]
    decide

theorem build_topic_plan_invalid_grade_witness :
    (build_topic_plan (fun _ _ => false) "Backend" "Intern" "").rules =
      { target_must_coverage := 92/100, max_total_turns := 16, topic_cooldown := 2 } :=
  (build_topic_plan_invalid_grade (fun _ _ => false) "Backend" "Intern" ""
    (by decide) (by decide) (by decide)).1

def c9Plan : TopicPlan := { role := "r", grade := "junior", topics := [], rules := {} }

def c9CallA : RecordCall :=
  { topic_id := "t", turn_id := 1, question := "a", score := 4, difficulty := 2 }

def c9CallB : RecordCall :=
  { topic_id := "t", turn_id := 2, question := "b", score := 3, difficulty := 2 }

theorem record_progress_math_witness :
    (statsD (applyCalls (c9Plan, ({} : ProgressTracker)) [c9CallA, c9CallB]).2 "t").avg_score
      = 7/8 := by
  have h := record_progress_math.2 c9Plan {} "t" [c9CallA, c9CallB] (by decide) rfl rfl
  rw [h]
  norm_num [c9CallA, c9CallB]
